import Mathlib

/-!
Verification of the MMgrConfigure message (src/messages/MMgrConfigure.h).

The header defines a single versioned wire message: a `stats_period`
(`uint32_t`) payload with `encode_payload` / `decode_payload`, a fixed type
name, and a default constructor binding the message type id and the
wire/compat versions.  The serialization primitives (`::encode`,
`::decode`, `bufferlist`) and the generic `Message` envelope machinery live
outside the provided sources and are modelled from the specification, as
noted on each such definition.

Bytes are natural numbers below 256; a bufferlist is a `List Nat`.
Exceptions thrown by the C++ decode path are modelled by returning the
post-state of the object together with an optional error.
-/

/-- Decode-side error kinds named by the specification. -/
inductive DecodeError where
  | TruncatedPayload
  | MalformedHeader
  | UnknownMessageType
  | IncompatibleVersion
deriving DecidableEq, Repr

/-- Modelled from the spec: the fixed message-type id for "manager configure"
messages.  The constant `MSG_MGR_CONFIGURE` is declared in msg/Message.h,
which is outside the provided sources; only its fixedness and uniqueness
matter here, so an arbitrary concrete value is used. -/
def MSG_MGR_CONFIGURE : Nat := 1795

/-- Source constant `static const int HEAD_VERSION = 1` of MMgrConfigure. -/
def HEAD_VERSION : Nat := 1

/-- Source constant `static const int COMPAT_VERSION = 1` of MMgrConfigure. -/
def COMPAT_VERSION : Nat := 1

/-- Modelled from the spec: the serializer for `uint32_t` invoked as
`::encode(stats_period, payload)` (include/encoding.h, outside the provided
sources).  It appends the value as a fixed-width 4-byte integer in the
system's canonical (little-endian) byte order; appending is the bufferlist
contract, so the bytes produced here are the suffix added to the buffer. -/
def encode_u32 (v : Nat) : List Nat :=
  [v % 256, v / 256 % 256, v / 65536 % 256, v / 16777216 % 256]

/-- Modelled from the spec: the deserializer for `uint32_t` invoked as
`::decode(stats_period, p)` (include/encoding.h, outside the provided
sources).  It reads exactly 4 bytes into the destination, failing with
`TruncatedPayload` (buffer underflow) when fewer than 4 bytes remain, in
which case the destination keeps its prior value `v`; trailing bytes beyond
the 4 consumed are left in the iterator and ignored. -/
def decode_u32 (v : Nat) (bl : List Nat) : (Nat × List Nat) × Option DecodeError :=
  match bl with
  | b0 :: b1 :: b2 :: b3 :: rest =>
      ((b0 + 256 * b1 + 65536 * b2 + 16777216 * b3, rest), none)
  | _ => ((v, bl), some DecodeError.TruncatedPayload)

/-- The MMgrConfigure message object: the `Message` base-class state it uses
(type id, wire and compat version, the `payload` bufferlist; the base class
is declared in msg/Message.h, outside the provided sources and modelled from
the spec) together with the `uint32_t stats_period` member of the class. -/
structure MMgrConfigure where
  type_id : Nat
  wire_version : Nat
  compat_version : Nat
  payload : List Nat
  stats_period : Nat
deriving DecidableEq, Repr

/-- The default constructor
`MMgrConfigure() : Message(MSG_MGR_CONFIGURE, HEAD_VERSION, COMPAT_VERSION) {}`.
The member `uint32_t stats_period` does not appear in the mem-initializer
list and has no default member initializer, so it is left default-initialized
and holds an indeterminate value; that indeterminate value is the explicit
parameter `indet` of the model. -/
def MMgrConfigure.init (indet : Nat) : MMgrConfigure :=
  { type_id := MSG_MGR_CONFIGURE
    wire_version := HEAD_VERSION
    compat_version := COMPAT_VERSION
    payload := []
    stats_period := indet }

/-- Source method `void encode_payload(uint64_t features) { ::encode(stats_period, payload); }`:
appends the 4-byte encoding of `stats_period` to the `payload` bufferlist.
The `features` argument is not consulted. -/
def MMgrConfigure.encode_payload (m : MMgrConfigure) (features : Nat) : MMgrConfigure :=
  { m with payload := m.payload ++ encode_u32 m.stats_period }

/-- Source method `void decode_payload()`:
`bufferlist::iterator p = payload.begin(); ::decode(stats_period, p);`.
It reads `stats_period` from the start of the payload buffer; when the
buffer holds fewer than 4 bytes the decode throws and `stats_period` keeps
its prior value.  The result is the post-state of the object together with
the thrown error, if any. -/
def MMgrConfigure.decode_payload (m : MMgrConfigure) : MMgrConfigure × Option DecodeError :=
  let r := decode_u32 m.stats_period m.payload
  ({ m with stats_period := r.1.1 }, r.2)

/-- Source method `const char *get_type_name() const { return "mgrconfigure"; }`. -/
def MMgrConfigure.get_type_name (_ : MMgrConfigure) : String := "mgrconfigure"

/-- Source method `void print(ostream& out) const { out << get_type_name() << "()"; }`,
rendered as the string written to the stream. -/
def MMgrConfigure.print (m : MMgrConfigure) : String :=
  m.get_type_name ++ "()"

/-- Modelled from the spec: the receiver-side version gate of the generic
message decode (msg/Message machinery, outside the provided sources).  When
the incoming `compat_version` exceeds the receiver's maximum understood
version, decode fails with `IncompatibleVersion` before touching the payload
bytes; otherwise the payload decode proceeds, reading only the known fields
and ignoring trailing bytes. -/
def decode_versioned (incoming_wire incoming_compat receiver_max : Nat)
    (m : MMgrConfigure) : MMgrConfigure × Option DecodeError :=
  if receiver_max < incoming_compat then (m, some DecodeError.IncompatibleVersion)
  else m.decode_payload

/-- C1: for every 32-bit value p and every feature set f, encoding a fresh
payload whose stats_period is p via encode_payload f and then decoding via
decode_payload succeeds and yields stats_period = p: decode_payload is a
left inverse of encode_payload on a fresh instance. -/
theorem C1_roundtrip (p f indet : Nat) (hp : p < 2 ^ 32) :
    ({ MMgrConfigure.init indet with stats_period := p }.encode_payload f).decode_payload
      = ({ MMgrConfigure.init indet with stats_period := p }.encode_payload f, none) := by
  simp only [MMgrConfigure.init, MMgrConfigure.encode_payload,
    MMgrConfigure.decode_payload, encode_u32, decode_u32, List.nil_append]
  refine Prod.ext ?_ rfl
  simp only [MMgrConfigure.mk.injEq, and_true, true_and]
  omega

/-- C1 witness: the round trip at the concrete period 30, feature set 0. -/
theorem C1_roundtrip_witness :
    ({ MMgrConfigure.init 7 with stats_period := 30 }.encode_payload 0).decode_payload
      = ({ MMgrConfigure.init 7 with stats_period := 30 }.encode_payload 0, none) :=
  C1_roundtrip 30 0 7 (by decide)

/-- C2: for every stats_period value and every feature set, encode_payload on
a fresh instance produces a payload body that is exactly 4 bytes long:
stats_period serialized as a fixed-width unsigned 32-bit integer in the
canonical (little-endian) byte order, and nothing else. -/
theorem C2_fixed_width (p f indet : Nat) :
    ({ MMgrConfigure.init indet with stats_period := p }.encode_payload f).payload
      = [p % 256, p / 256 % 256, p / 65536 % 256, p / 16777216 % 256] ∧
    ({ MMgrConfigure.init indet with stats_period := p }.encode_payload f).payload.length = 4 := by
  constructor <;>
    simp [MMgrConfigure.init, MMgrConfigure.encode_payload, encode_u32]

/-- C3: decode_payload on a payload body shorter than 4 bytes fails with
TruncatedPayload; on a body of 4 or more bytes it succeeds, reading
stats_period from the first 4 bytes and ignoring any trailing bytes beyond
the 4 consumed. -/
theorem C3_truncation (m : MMgrConfigure) :
    (m.payload.length < 4 →
        m.decode_payload = (m, some DecodeError.TruncatedPayload)) ∧
    (∀ b0 b1 b2 b3 rest, m.payload = b0 :: b1 :: b2 :: b3 :: rest →
        m.decode_payload
          = ({ m with stats_period := b0 + 256 * b1 + 65536 * b2 + 16777216 * b3 }, none)) := by
  constructor
  · intro h
    obtain ⟨t, w, cv, pl, sp⟩ := m
    rcases pl with _ | ⟨a, _ | ⟨b, _ | ⟨c, _ | ⟨d, rest⟩⟩⟩⟩
    · rfl
    · rfl
    · rfl
    · rfl
    · simp only [List.length_cons] at h
      omega
  · intro b0 b1 b2 b3 rest h
    simp [MMgrConfigure.decode_payload, decode_u32, h]

/-- C3 witness: a 2-byte body fails with TruncatedPayload; a 6-byte body
succeeds, reading 258 from the first 4 bytes and ignoring the last 2. -/
theorem C3_truncation_witness :
    ({ MMgrConfigure.init 0 with payload := [9, 9] }.decode_payload
        = ({ MMgrConfigure.init 0 with payload := [9, 9] }, some DecodeError.TruncatedPayload)) ∧
    ({ MMgrConfigure.init 0 with payload := [2, 1, 0, 0, 7, 7] }.decode_payload
        = ({ MMgrConfigure.init 0 with payload := [2, 1, 0, 0, 7, 7], stats_period := 258 }, none)) := by
  refine ⟨(C3_truncation _).1 (by decide), ?_⟩
  have h := (C3_truncation { MMgrConfigure.init 0 with payload := [2, 1, 0, 0, 7, 7] }).2
    2 1 0 0 [7, 7] rfl
  simpa using h

/-- C4 counterexample: the claim says the default constructor yields
stats_period = 0, but the constructor leaves the member uninitialized;
when the indeterminate storage holds 5, the constructed instance has
stats_period = 5, not 0. -/
theorem C4_counterexample : (MMgrConfigure.init 5).stats_period ≠ 0 := by decide

/-- C4 (amended): the default constructor binds the type id to the
manager-configure message type, but stats_period is left uninitialized: it
holds whatever indeterminate value the storage had, not necessarily 0. -/
theorem C4_ctor_binding (indet : Nat) :
    (MMgrConfigure.init indet).type_id = MSG_MGR_CONFIGURE ∧
    (MMgrConfigure.init indet).stats_period = indet :=
  ⟨rfl, rfl⟩

/-- C5: for every payload state and every pair of feature sets, the two
encodings coincide: the feature-set argument has no effect on
encode_payload at this version. -/
theorem C5_features_ignored (m : MMgrConfigure) (f1 f2 : Nat) :
    m.encode_payload f1 = m.encode_payload f2 := rfl

/-- C6: print yields the same string for every instance; that string is the
fixed type name "mgrconfigure" followed by "()" and carries no content
derived from stats_period; in particular the instance with stats_period = 5
renders identically to any other instance. -/
theorem C6_render_constant (m n : MMgrConfigure) :
    m.print = "mgrconfigure()" ∧
    m.print = m.get_type_name ++ "()" ∧
    m.get_type_name = "mgrconfigure" ∧
    ({ m with stats_period := 5 }).print = n.print :=
  ⟨rfl, rfl, rfl, rfl⟩

/-- C7: every instance produced by the default constructor carries
wire_version = 1 and compat_version = 1, hence wire_version >= compat_version,
and both encode_payload and decode_payload preserve the two version fields,
so the invariant holds throughout the instance's lifetime. -/
theorem C7_versions (indet f : Nat) (m : MMgrConfigure) :
    (MMgrConfigure.init indet).wire_version = HEAD_VERSION ∧
    (MMgrConfigure.init indet).compat_version = COMPAT_VERSION ∧
    HEAD_VERSION = 1 ∧ COMPAT_VERSION = 1 ∧
    (MMgrConfigure.init indet).compat_version ≤ (MMgrConfigure.init indet).wire_version ∧
    (m.encode_payload f).wire_version = m.wire_version ∧
    (m.encode_payload f).compat_version = m.compat_version ∧
    (m.decode_payload).1.wire_version = m.wire_version ∧
    (m.decode_payload).1.compat_version = m.compat_version :=
  ⟨rfl, rfl, rfl, rfl, Nat.le_refl 1, rfl, rfl, rfl, rfl⟩

/-- C8: decode_payload is atomic: for every payload buffer it either
succeeds, fully populating stats_period from the first 4 buffer bytes, or
it fails with TruncatedPayload and the post-state is exactly the pre-state,
stats_period included - no half-initialized state is visible. -/
theorem C8_atomic (m : MMgrConfigure) :
    ((m.decode_payload).2 = none ∧
        (m.decode_payload).1.stats_period
          = m.payload.headD 0 + 256 * (m.payload.drop 1).headD 0
              + 65536 * (m.payload.drop 2).headD 0
              + 16777216 * (m.payload.drop 3).headD 0) ∨
    ((m.decode_payload).2 = some DecodeError.TruncatedPayload ∧
        (m.decode_payload).1.stats_period = m.stats_period ∧
        (m.decode_payload).1 = m) := by
  obtain ⟨t, w, cv, pl, sp⟩ := m
  rcases pl with _ | ⟨a, _ | ⟨b, _ | ⟨c, _ | ⟨d, rest⟩⟩⟩⟩ <;>
    simp [MMgrConfigure.decode_payload, decode_u32]

/-- C9: when the incoming compat_version exceeds the receiver's maximum
understood version, decode fails with IncompatibleVersion regardless of the
payload bytes; when the incoming wire_version is higher than the receiver's
maximum but the incoming compat_version is within it, decode proceeds as the
plain payload decode, which reads only the known 4 bytes and ignores
trailing ones. -/
theorem C9_version_gate (w c rmax : Nat) (m : MMgrConfigure) :
    (rmax < c → decode_versioned w c rmax m = (m, some DecodeError.IncompatibleVersion)) ∧
    (rmax < w → c ≤ rmax → decode_versioned w c rmax m = m.decode_payload) := by
  constructor
  · intro h
    simp [decode_versioned, h]
  · intro _ h
    simp [decode_versioned, Nat.not_lt.mpr h]

/-- C9 witness: with receiver maximum 1, an incoming envelope with
wire_version 2 and compat_version 2 is rejected as IncompatibleVersion even
though its 4-byte payload is well-formed, while wire_version 2 with
compat_version 1 decodes as the plain payload decode. -/
theorem C9_version_gate_witness :
    (decode_versioned 2 2 1 { MMgrConfigure.init 0 with payload := [1, 0, 0, 0] }
        = ({ MMgrConfigure.init 0 with payload := [1, 0, 0, 0] },
            some DecodeError.IncompatibleVersion)) ∧
    (decode_versioned 2 1 1 { MMgrConfigure.init 0 with payload := [1, 0, 0, 0] }
        = { MMgrConfigure.init 0 with payload := [1, 0, 0, 0] }.decode_payload) :=
  ⟨(C9_version_gate 2 2 1 _).1 (by decide),
   (C9_version_gate 2 1 1 _).2 (by decide) (by decide)⟩

/-- C10: encode_payload appends to the existing payload buffer rather than
replacing it: two consecutive calls leave the prior buffer followed by two
consecutive 4-byte encodings of stats_period - on a fresh instance an
8-byte buffer - so encode_payload is not idempotent on the buffer state. -/
theorem C10_append (m : MMgrConfigure) (f1 f2 indet p : Nat) :
    ((m.encode_payload f1).encode_payload f2).payload
      = m.payload ++ encode_u32 m.stats_period ++ encode_u32 m.stats_period ∧
    (({ MMgrConfigure.init indet with stats_period := p }.encode_payload f1).encode_payload
        f2).payload.length = 8 ∧
    (m.encode_payload f1).encode_payload f2 ≠ m.encode_payload f1 := by
  refine ⟨?_, ?_, ?_⟩
  · simp [MMgrConfigure.encode_payload]
  · simp [MMgrConfigure.init, MMgrConfigure.encode_payload, encode_u32]
  · intro h
    have hlen : ((m.encode_payload f1).encode_payload f2).payload.length
        = (m.encode_payload f1).payload.length := by rw [h]
    simp [MMgrConfigure.encode_payload, encode_u32] at hlen
